import Mathlib

/-!
Verification of the HTU2XD humidity/temperature sensor driver.

The driver consists of three parts:
* an 8-bit CRC engine (source file `src/crc.rs`),
* a user-register bit codec (source file `src/user_register.rs`),
* the reading decode and acquisition logic (source file `src/lib.rs`).

Machine integers (`u8`, `u16`) are embedded as `Nat` with explicit `% 256`
truncation exactly where the Rust arithmetic wraps; byte-valued inputs carry
`< 256` hypotheses where a theorem needs them.
-/

namespace HTU2XD

/-! ### Checksum engine, from `src/crc.rs` -/

/-- One iteration of the inner loop of `Crc::add`: if the high bit of the
8-bit remainder is set, shift left (truncating to 8 bits, as the Rust `u8`
shift does) and xor with the generator `0x31`; otherwise just shift left. -/
def Crc.step (v : Nat) : Nat :=
  if v &&& 0x80 ≠ 0 then ((v <<< 1) % 256) ^^^ 0x31 else (v <<< 1) % 256

/-- Initial CRC state, from `Crc::new`. -/
def Crc.new : Nat := 0

/-- The body of `Crc::add`: xor the byte into the remainder, then run the
shift loop eight times. -/
def Crc.add (value byte : Nat) : Nat :=
  Crc.step^[8] (value ^^^ byte)

/-- The body of `Crc::add_all`: fold `Crc.add` over the byte sequence in
order. -/
def Crc.addAll (value : Nat) (bytes : List Nat) : Nat :=
  bytes.foldl Crc.add value

/-! ### Reading decoder, from `src/lib.rs` -/

/-- The `Reading` enum from `src/lib.rs`. The Rust type is generic over the
measurement kind (`Temperature` or `Humidity`); both kinds wrap a raw `u16`,
embedded here as a `Nat` payload. -/
inductive Reading where
  | Ok (raw : Nat)
  | ErrorLow
  | ErrorHigh
deriving DecidableEq, Repr

/-- The body of `Reading::from_raw`: `0x0000` decodes to `ErrorLow`,
`0xffff` to `ErrorHigh`, and anything else to a normal reading with the two
low status bits cleared. -/
def Reading.from_raw (raw : Nat) : Reading :=
  if raw = 0x0000 then .ErrorLow
  else if raw = 0xffff then .ErrorHigh
  else .Ok (raw &&& 0xfffc)

/-- The `Error` enum from `src/lib.rs`: an I2C transport error or a CRC
mismatch. -/
inductive Error (E : Type) where
  | I2c (e : E)
  | Crc
deriving DecidableEq, Repr

/-- The body of `parse_and_check_reading`: feed the 3 received bytes through
the CRC engine; a nonzero remainder is reported as `Error::Crc`, otherwise
the 16-bit word is assembled big-endian and decoded with
`Reading::from_raw`. -/
def parse_and_check_reading {E : Type} (bytes : Nat × Nat × Nat) :
    Except (Error E) Reading :=
  let crc := Crc.addAll 0 [bytes.1, bytes.2.1, bytes.2.2]
  if crc ≠ 0 then .error .Crc
  else
    let reading16 := (bytes.1 <<< 8) ||| bytes.2.1
    .ok (Reading.from_raw reading16)

/-- The error type of the `nb` crate: either a wrapped error or
`WouldBlock` (not ready yet, poll again). -/
inductive NbError (E : Type) where
  | Other (e : E)
  | WouldBlock
deriving DecidableEq, Repr

/-- The body of `ResultReader::read_result`. The Rust method performs an I2C
read transaction and then branches on its outcome; the outcome of that
transaction is passed in explicitly here (`Except.ok` with the 3 received
bytes, or `Except.error` with the transport error). On a successful read
the bytes go through `parse_and_check_reading`; on a transport error the
caller-supplied `is_nak` predicate decides between `WouldBlock` and a
wrapped I2C error. -/
def ResultReader.read_result {E : Type} (readOutcome : Except E (Nat × Nat × Nat))
    (is_nak : E → Bool) : Except (NbError (Error E)) Reading :=
  match readOutcome with
  | .ok buffer => (parse_and_check_reading buffer).mapError NbError.Other
  | .error e =>
    if is_nak e then .error .WouldBlock
    else .error (.Other (.I2c e))

/-! ### Register codec, from `src/user_register.rs` -/

/-- The `Resolution` enum from `src/user_register.rs`. -/
inductive Resolution where
  | Humidity12Temperature14
  | Humidity8Temperature12
  | Humidity10Temperature13
  | Humidity11Temperature11
deriving DecidableEq, Repr, Fintype

/-- The `SupplyVoltage` enum from `src/user_register.rs`. -/
inductive SupplyVoltage where
  | High
  | Low
deriving DecidableEq, Repr

/-- The body of `UserRegister::resolution`: decode bits 7 and 0. -/
def UserRegister.resolution (r : Nat) : Resolution :=
  let bit7 : Bool := ((r >>> 7) &&& 1) == 1
  let bit0 : Bool := (r &&& 1) == 1
  match bit7, bit0 with
  | false, false => .Humidity12Temperature14
  | false, true => .Humidity8Temperature12
  | true, false => .Humidity10Temperature13
  | true, true => .Humidity11Temperature11

/-- The body of `UserRegister::supply_voltage`: decode bit 6. -/
def UserRegister.supply_voltage (r : Nat) : SupplyVoltage :=
  let bit6 : Bool := ((r >>> 6) &&& 1) == 1
  if bit6 then .Low else .High

/-- The body of `UserRegister::heater_enabled`: decode bit 2. -/
def UserRegister.heater_enabled (r : Nat) : Bool :=
  ((r >>> 2) &&& 1) == 1

/-- The body of `UserRegister::otp_reload_enabled`: decode bit 1, inverted
(1 = disable). -/
def UserRegister.otp_reload_enabled (r : Nat) : Bool :=
  let bit1 : Bool := ((r >>> 1) &&& 1) == 1
  !bit1

/-- The body of `UserRegister::set_resolution`: clear bits 7 and 0, then set
them according to the resolution. The Rust `!mask` is a `u8` bitwise
complement, embedded as `255 ^^^ mask`. -/
def UserRegister.set_resolution (r : Nat) (resolution : Resolution) : Nat :=
  let bit7Mask : Nat := 1 <<< 7
  let bit0Mask : Nat := 1
  let cleared := r &&& (255 ^^^ (bit7Mask ||| bit0Mask))
  match resolution with
  | .Humidity12Temperature14 => cleared
  | .Humidity8Temperature12 => cleared ||| bit0Mask
  | .Humidity10Temperature13 => cleared ||| bit7Mask
  | .Humidity11Temperature11 => cleared ||| (bit7Mask ||| bit0Mask)

/-- The body of `UserRegister::set_heater_enabled`: set or clear bit 2. -/
def UserRegister.set_heater_enabled (r : Nat) (enabled : Bool) : Nat :=
  let bit2Mask : Nat := 1 <<< 2
  if enabled then r ||| bit2Mask else r &&& (255 ^^^ bit2Mask)

/-- The body of `UserRegister::set_otp_reload_enabled`: clear bit 1 to
enable, set it to disable (inverted polarity). -/
def UserRegister.set_otp_reload_enabled (r : Nat) (otp_reload : Bool) : Nat :=
  let bit1Mask : Nat := 1 <<< 1
  if otp_reload then r &&& (255 ^^^ bit1Mask) else r ||| bit1Mask

/-! ### Helper lemmas about the CRC engine -/

/-- Truncated left shift distributes over xor. -/
theorem Crc.shl_mod_xor (a b : Nat) :
    ((a ^^^ b) <<< 1) % 256 = ((a <<< 1) % 256) ^^^ ((b <<< 1) % 256) := by
  have h256 : (256 : Nat) = 2 ^ 8 := by norm_num
  rw [h256]
  apply Nat.eq_of_testBit_eq
  intro i
  simp only [Nat.testBit_mod_two_pow, Nat.testBit_xor, Nat.testBit_shiftLeft,
    Bool.and_xor_distrib_left, Bool.and_xor_distrib_right]

/-- Extracting the high bit of a byte commutes with xor. -/
theorem Crc.and_128_eq (a b : Nat) :
    (a ^^^ b) &&& 0x80 = (a &&& 0x80) ^^^ (b &&& 0x80) :=
  Nat.and_xor_distrib_right

/-- The high-bit mask of any natural number is 0 or 128. -/
theorem Crc.and_128_cases (a : Nat) : a &&& 0x80 = 0 ∨ a &&& 0x80 = 128 := by
  have h : (0x80 : Nat) = 2 ^ 7 := by norm_num
  rw [h, Nat.and_two_pow]
  cases a.testBit 7 <;> simp

/-- Cancelling a common xor term on both sides of a xor. -/
theorem xor_cancel_pair (x y c : Nat) : (x ^^^ c) ^^^ (y ^^^ c) = x ^^^ y := by
  rw [Nat.xor_assoc, Nat.xor_comm y c, Nat.xor_cancel_left]

/-- Swapping the two right operands of a double xor. -/
theorem xor_swap_right (x y c : Nat) : x ^^^ y ^^^ c = x ^^^ c ^^^ y := by
  rw [Nat.xor_assoc, Nat.xor_comm y c, ← Nat.xor_assoc]

/-- Interchange law for xor. -/
theorem xor_xor_xor (a b c d : Nat) :
    (a ^^^ b) ^^^ (c ^^^ d) = (a ^^^ c) ^^^ (b ^^^ d) := by
  rw [Nat.xor_assoc, Nat.xor_comm c d, ← Nat.xor_assoc b d c,
    Nat.xor_comm (b ^^^ d) c, ← Nat.xor_assoc]

/-- One CRC shift round is linear over GF(2): it commutes with xor. -/
theorem Crc.step_linear (a b : Nat) :
    Crc.step (a ^^^ b) = Crc.step a ^^^ Crc.step b := by
  unfold Crc.step
  rw [Crc.and_128_eq]
  rcases Crc.and_128_cases a with ha | ha <;> rcases Crc.and_128_cases b with hb | hb <;>
    rw [ha, hb] <;> norm_num [Crc.shl_mod_xor a b]
  · exact Nat.xor_assoc _ _ _
  · exact xor_swap_right _ _ _
  · exact (xor_cancel_pair _ _ _).symm

/-- Iterating the CRC shift round is linear over GF(2). -/
theorem Crc.iterate_step_linear (n a b : Nat) :
    Crc.step^[n] (a ^^^ b) = Crc.step^[n] a ^^^ Crc.step^[n] b := by
  induction n generalizing a b with
  | zero => simp
  | succ n ih =>
    rw [Function.iterate_succ_apply, Function.iterate_succ_apply,
      Function.iterate_succ_apply, Crc.step_linear]
    exact ih _ _

/-- Processing one byte with `Crc.add` is linear over GF(2), jointly in the
state and in the byte. -/
theorem Crc.add_linear (s t b c : Nat) :
    Crc.add (s ^^^ t) (b ^^^ c) = Crc.add s b ^^^ Crc.add t c := by
  unfold Crc.add
  rw [xor_xor_xor, Crc.iterate_step_linear]

/-- Adding a byte equal to the current remainder drives the remainder to 0. -/
theorem Crc.add_self (s : Nat) : Crc.add s s = 0 := by
  unfold Crc.add
  rw [Nat.xor_self]
  rfl

/-- The CRC of a 3-byte message is linear over GF(2) in the message. -/
theorem Crc.addAll3_linear (a1 a2 a3 d1 d2 d3 : Nat) :
    Crc.addAll 0 [a1 ^^^ d1, a2 ^^^ d2, a3 ^^^ d3] =
      Crc.addAll 0 [a1, a2, a3] ^^^ Crc.addAll 0 [d1, d2, d3] := by
  show Crc.add (Crc.add (Crc.add 0 (a1 ^^^ d1)) (a2 ^^^ d2)) (a3 ^^^ d3) =
    Crc.add (Crc.add (Crc.add 0 a1) a2) a3 ^^^ Crc.add (Crc.add (Crc.add 0 d1) d2) d3
  have h0 : (0 : Nat) = 0 ^^^ 0 := rfl
  rw [h0, Crc.add_linear, Crc.add_linear, Crc.add_linear]
  rfl

/-- Flipping bits of the first byte only, as a linearity consequence. -/
theorem Crc.addAll3_flip1 (a1 a2 a3 d : Nat) :
    Crc.addAll 0 [a1 ^^^ d, a2, a3] =
      Crc.addAll 0 [a1, a2, a3] ^^^ Crc.addAll 0 [d, 0, 0] := by
  have h := Crc.addAll3_linear a1 a2 a3 d 0 0
  simpa using h

/-- Flipping bits of the second byte only, as a linearity consequence. -/
theorem Crc.addAll3_flip2 (a1 a2 a3 d : Nat) :
    Crc.addAll 0 [a1, a2 ^^^ d, a3] =
      Crc.addAll 0 [a1, a2, a3] ^^^ Crc.addAll 0 [0, d, 0] := by
  have h := Crc.addAll3_linear a1 a2 a3 0 d 0
  simpa using h

/-- Flipping bits of the third byte only, as a linearity consequence. -/
theorem Crc.addAll3_flip3 (a1 a2 a3 d : Nat) :
    Crc.addAll 0 [a1, a2, a3 ^^^ d] =
      Crc.addAll 0 [a1, a2, a3] ^^^ Crc.addAll 0 [0, 0, d] := by
  have h := Crc.addAll3_linear a1 a2 a3 0 0 d
  simpa using h

/-- Appending the remainder of a 2-byte message to the message itself yields
a 3-byte message whose CRC is 0. -/
theorem Crc.valid_reply (hi lo : Nat) :
    Crc.addAll 0 [hi, lo, Crc.addAll 0 [hi, lo]] = 0 := by
  show Crc.add (Crc.add (Crc.add 0 hi) lo) (Crc.add (Crc.add 0 hi) lo) = 0
  exact Crc.add_self _

/-- With a nonzero CRC remainder, `parse_and_check_reading` reports
`Error.Crc`. -/
theorem parse_crc_error {E : Type} (b0 b1 b2 : Nat)
    (h : Crc.addAll 0 [b0, b1, b2] ≠ 0) :
    parse_and_check_reading (E := E) (b0, b1, b2) = .error .Crc := by
  simp [parse_and_check_reading, h]

/-- With a zero CRC remainder, `parse_and_check_reading` decodes the word
assembled big-endian from the first two bytes. -/
theorem parse_crc_ok {E : Type} (b0 b1 b2 : Nat)
    (h : Crc.addAll 0 [b0, b1, b2] = 0) :
    parse_and_check_reading (E := E) (b0, b1, b2) =
      .ok (Reading.from_raw ((b0 <<< 8) ||| b1)) := by
  simp [parse_and_check_reading, h]

/-- The CRC of each 3-byte message holding a single set bit is nonzero, for
all 24 bit positions. -/
theorem Crc.flip_deltas_nonzero : ∀ i < 8,
    Crc.addAll 0 [1 <<< i, 0, 0] ≠ 0 ∧ Crc.addAll 0 [0, 1 <<< i, 0] ≠ 0 ∧
    Crc.addAll 0 [0, 0, 1 <<< i] ≠ 0 := by decide

/-! ### Claim theorems -/

/-- Claim C1: for every pair of data bytes `hi` and `lo`, feeding `hi`, `lo`
and then the checksum of `[hi, lo]` through the engine (starting from state
0) leaves remainder exactly 0, so `parse_and_check_reading` accepts every
reply `[hi, lo, crc(hi, lo)]` and decodes its big-endian word. -/
theorem crc_valid_reply_accepted (hi lo : Nat) :
    Crc.addAll 0 [hi, lo, Crc.addAll 0 [hi, lo]] = 0 ∧
    parse_and_check_reading (E := Unit) (hi, lo, Crc.addAll 0 [hi, lo]) =
      .ok (Reading.from_raw ((hi <<< 8) ||| lo)) :=
  ⟨Crc.valid_reply hi lo, parse_crc_ok _ _ _ (Crc.valid_reply hi lo)⟩

/-- Claim C2: for a checksum-valid 3-byte reply, `parse_and_check_reading`
assembles the 16-bit word big-endian (high byte first) and decodes it by
checking, in order: word `0x0000` gives the error-low sentinel, word
`0xffff` gives the error-high sentinel, and any other word gives a normal
reading holding the word with its two low-order bits cleared. -/
theorem checked_word_decode (hi lo c : Nat)
    (hcrc : Crc.addAll 0 [hi, lo, c] = 0) :
    parse_and_check_reading (E := Unit) (hi, lo, c) =
      .ok (if (hi <<< 8) ||| lo = 0x0000 then Reading.ErrorLow
        else if (hi <<< 8) ||| lo = 0xffff then Reading.ErrorHigh
        else Reading.Ok (((hi <<< 8) ||| lo) &&& 0xfffc)) := by
  rw [parse_crc_ok hi lo c hcrc]
  rfl

/-- Witness for claim C2 at the concrete valid reply `[0x68, 0x3a, 0x7c]`. -/
theorem checked_word_decode_witness :
    Crc.addAll 0 [0x68, 0x3a, 0x7c] = 0 ∧
    parse_and_check_reading (E := Unit) (0x68, 0x3a, 0x7c) =
      .ok (if (0x68 <<< 8) ||| 0x3a = 0x0000 then Reading.ErrorLow
        else if (0x68 <<< 8) ||| 0x3a = 0xffff then Reading.ErrorHigh
        else Reading.Ok ((((0x68 : Nat) <<< 8) ||| 0x3a) &&& 0xfffc)) :=
  ⟨by decide, checked_word_decode 0x68 0x3a 0x7c (by decide)⟩

/-- Claim C3: `read_result` maps a transport error classified as
negative-acknowledge to the distinct not-ready indication `WouldBlock`, any
other transport error to that error wrapped as an I2C error, a 3-byte reply
with nonzero checksum to the distinct checksum-failure error, and a reply
with passing checksum to the decoded typed reading. -/
theorem read_result_cases {E : Type} (e : E) (is_nak : E → Bool)
    (b0 b1 b2 : Nat) :
    (is_nak e = true →
      ResultReader.read_result (E := E) (.error e) is_nak =
        .error .WouldBlock) ∧
    (is_nak e = false →
      ResultReader.read_result (E := E) (.error e) is_nak =
        .error (.Other (.I2c e))) ∧
    (Crc.addAll 0 [b0, b1, b2] ≠ 0 →
      ResultReader.read_result (E := E) (.ok (b0, b1, b2)) is_nak =
        .error (.Other .Crc)) ∧
    (Crc.addAll 0 [b0, b1, b2] = 0 →
      ResultReader.read_result (E := E) (.ok (b0, b1, b2)) is_nak =
        .ok (Reading.from_raw ((b0 <<< 8) ||| b1))) := by
  refine ⟨fun h => ?_, fun h => ?_, fun h => ?_, fun h => ?_⟩
  · simp [ResultReader.read_result, h]
  · simp [ResultReader.read_result, h]
  · simp [ResultReader.read_result, parse_crc_error b0 b1 b2 h, Except.mapError]
  · simp [ResultReader.read_result, parse_crc_ok b0 b1 b2 h, Except.mapError]

/-- Witness for claim C3: all four poll outcomes at concrete inputs. -/
theorem read_result_cases_witness :
    ResultReader.read_result (E := Nat) (.error 7) (fun n => n == 7) =
      .error .WouldBlock ∧
    ResultReader.read_result (E := Nat) (.error 9) (fun n => n == 7) =
      .error (.Other (.I2c 9)) ∧
    ResultReader.read_result (E := Nat) (.ok (1, 2, 3)) (fun n => n == 7) =
      .error (.Other .Crc) ∧
    ResultReader.read_result (E := Nat) (.ok (0x68, 0x3a, 0x7c)) (fun n => n == 7) =
      .ok (Reading.from_raw (((0x68 : Nat) <<< 8) ||| 0x3a)) :=
  ⟨(read_result_cases 7 (fun n => n == 7) 1 2 3).1 (by decide),
   (read_result_cases 9 (fun n => n == 7) 1 2 3).2.1 (by decide),
   (read_result_cases 9 (fun n => n == 7) 1 2 3).2.2.1 (by decide),
   (read_result_cases 9 (fun n => n == 7) 0x68 0x3a 0x7c).2.2.2 (by decide)⟩

/-- Claim C4: starting from a valid reply `[hi, lo, crc(hi, lo)]`, flipping
any single one of the 24 bits (position `i` of any of the 3 bytes) makes the
checksum over the modified sequence nonzero, so validation fails with the
CRC error. -/
theorem single_bit_flip_detected (hi lo i : Nat) (h8 : i < 8) :
    (Crc.addAll 0 [hi ^^^ (1 <<< i), lo, Crc.addAll 0 [hi, lo]] ≠ 0 ∧
      parse_and_check_reading (E := Unit)
        (hi ^^^ (1 <<< i), lo, Crc.addAll 0 [hi, lo]) = .error .Crc) ∧
    (Crc.addAll 0 [hi, lo ^^^ (1 <<< i), Crc.addAll 0 [hi, lo]] ≠ 0 ∧
      parse_and_check_reading (E := Unit)
        (hi, lo ^^^ (1 <<< i), Crc.addAll 0 [hi, lo]) = .error .Crc) ∧
    (Crc.addAll 0 [hi, lo, Crc.addAll 0 [hi, lo] ^^^ (1 <<< i)] ≠ 0 ∧
      parse_and_check_reading (E := Unit)
        (hi, lo, Crc.addAll 0 [hi, lo] ^^^ (1 <<< i)) = .error .Crc) := by
  obtain ⟨hd1, hd2, hd3⟩ := Crc.flip_deltas_nonzero i h8
  have h1 : Crc.addAll 0 [hi ^^^ (1 <<< i), lo, Crc.addAll 0 [hi, lo]] =
      Crc.addAll 0 [1 <<< i, 0, 0] := by
    rw [Crc.addAll3_flip1, Crc.valid_reply, Nat.zero_xor]
  have h2 : Crc.addAll 0 [hi, lo ^^^ (1 <<< i), Crc.addAll 0 [hi, lo]] =
      Crc.addAll 0 [0, 1 <<< i, 0] := by
    rw [Crc.addAll3_flip2, Crc.valid_reply, Nat.zero_xor]
  have h3 : Crc.addAll 0 [hi, lo, Crc.addAll 0 [hi, lo] ^^^ (1 <<< i)] =
      Crc.addAll 0 [0, 0, 1 <<< i] := by
    rw [Crc.addAll3_flip3, Crc.valid_reply, Nat.zero_xor]
  refine ⟨⟨h1 ▸ hd1, parse_crc_error _ _ _ (h1 ▸ hd1)⟩,
    ⟨h2 ▸ hd2, parse_crc_error _ _ _ (h2 ▸ hd2)⟩,
    ⟨h3 ▸ hd3, parse_crc_error _ _ _ (h3 ▸ hd3)⟩⟩

/-- Witness for claim C4: flipping bit 0 of the first byte of the valid
reply built from data bytes `[0x68, 0x3a]` is detected. -/
theorem single_bit_flip_detected_witness :
    (0 : Nat) < 8 ∧
    Crc.addAll 0 [0x68 ^^^ (1 <<< 0), 0x3a, Crc.addAll 0 [0x68, 0x3a]] ≠ 0 :=
  ⟨by decide, ((single_bit_flip_detected 0x68 0x3a 0 (by decide)).1).1⟩

/-- Claim C5: the checksum engine started from the initial state yields
`0x79` after byte `0xDC`, `0x7C` after `[0x68, 0x3A]`, and `0x6B` after
`[0x4E, 0x85]`. -/
theorem crc_known_values :
    Crc.add Crc.new 0xDC = 0x79 ∧ Crc.addAll Crc.new [0x68, 0x3A] = 0x7C ∧
    Crc.addAll Crc.new [0x4E, 0x85] = 0x6B := by decide

set_option maxRecDepth 40000 in
/-- Claim C6: for every register byte the accessors are pure
bit-extractions following the table: resolution from bits 7 and 0, supply
voltage from bit 6 (0 = high, 1 = low), heater enabled iff bit 2 is set,
and auto-reload-from-OTP enabled iff bit 1 is clear (inverted polarity). -/
theorem user_register_decode : ∀ r < 256,
    (UserRegister.resolution r = Resolution.Humidity12Temperature14 ↔
      r.testBit 7 = false ∧ r.testBit 0 = false) ∧
    (UserRegister.resolution r = Resolution.Humidity8Temperature12 ↔
      r.testBit 7 = false ∧ r.testBit 0 = true) ∧
    (UserRegister.resolution r = Resolution.Humidity10Temperature13 ↔
      r.testBit 7 = true ∧ r.testBit 0 = false) ∧
    (UserRegister.resolution r = Resolution.Humidity11Temperature11 ↔
      r.testBit 7 = true ∧ r.testBit 0 = true) ∧
    (UserRegister.supply_voltage r =
      if r.testBit 6 then SupplyVoltage.Low else SupplyVoltage.High) ∧
    (UserRegister.heater_enabled r = r.testBit 2) ∧
    (UserRegister.otp_reload_enabled r = !r.testBit 1) := by decide

/-- Witness for claim C6 at the register byte `0xB5`, whose bits 7 and 0
are both set. -/
theorem user_register_decode_witness :
    (0xB5 : Nat) < 256 ∧
    (UserRegister.resolution 0xB5 = Resolution.Humidity11Temperature11 ↔
      Nat.testBit 0xB5 7 = true ∧ Nat.testBit 0xB5 0 = true) :=
  ⟨by decide, (user_register_decode 0xB5 (by decide)).2.2.2.1⟩

/-- Claim C7 (counterexample): the register byte `0b0011_1010` has bit 1
set, so `otp_reload_enabled` decodes it as disabled, and applying the three
mutators of the claim yields `0b1011_1111`; the claimed decode (auto-reload
on) and the claimed final byte `0b1011_1101` are both wrong. -/
theorem user_register_roundtrip_cex :
    ¬ (UserRegister.resolution 0b00111010 = Resolution.Humidity12Temperature14 ∧
      UserRegister.supply_voltage 0b00111010 = SupplyVoltage.High ∧
      UserRegister.heater_enabled 0b00111010 = false ∧
      UserRegister.otp_reload_enabled 0b00111010 = true ∧
      UserRegister.set_otp_reload_enabled
        (UserRegister.set_heater_enabled
          (UserRegister.set_resolution 0b00111010
            Resolution.Humidity11Temperature11) true) false = 0b10111101) := by
  decide

/-- Claim C7 (amended): the register byte `0b0011_1010` decodes to
resolution 12-bit humidity/14-bit temperature, supply voltage high, heater
off, and auto-reload off; after setting resolution to 11-bit/11-bit,
enabling the heater, and disabling auto-reload, the byte equals
`0b1011_1111`, with reserved bits 3-5 unchanged. -/
theorem user_register_roundtrip :
    UserRegister.resolution 0b00111010 = Resolution.Humidity12Temperature14 ∧
    UserRegister.supply_voltage 0b00111010 = SupplyVoltage.High ∧
    UserRegister.heater_enabled 0b00111010 = false ∧
    UserRegister.otp_reload_enabled 0b00111010 = false ∧
    UserRegister.set_otp_reload_enabled
      (UserRegister.set_heater_enabled
        (UserRegister.set_resolution 0b00111010
          Resolution.Humidity11Temperature11) true) false = 0b10111111 ∧
    ((0b10111111 : Nat) >>> 3) &&& 7 = ((0b00111010 : Nat) >>> 3) &&& 7 := by
  decide

set_option maxRecDepth 1000000 in
/-- Frame property of `set_resolution` alone: bits other than 7 and 0 are
preserved. -/
theorem UserRegister.set_resolution_frame : ∀ r < 256, ∀ k < 8,
    ∀ (res : Resolution), k ≠ 7 → k ≠ 0 →
    (UserRegister.set_resolution r res).testBit k = r.testBit k := by decide

set_option maxRecDepth 1000000 in
/-- Frame property of `set_heater_enabled` alone: bits other than 2 are
preserved. -/
theorem UserRegister.set_heater_frame : ∀ r < 256, ∀ k < 8,
    ∀ (heater : Bool), k ≠ 2 →
    (UserRegister.set_heater_enabled r heater).testBit k = r.testBit k := by
  decide

set_option maxRecDepth 1000000 in
/-- Frame property of `set_otp_reload_enabled` alone: bits other than 1 are
preserved. -/
theorem UserRegister.set_otp_frame : ∀ r < 256, ∀ k < 8,
    ∀ (otp : Bool), k ≠ 1 →
    (UserRegister.set_otp_reload_enabled r otp).testBit k = r.testBit k := by
  decide

/-- Claim C8: each mutator changes only its own bits: `set_resolution`
changes at most bits 7 and 0, `set_heater_enabled` at most bit 2, and
`set_otp_reload_enabled` at most bit 1; in particular the reserved bits 3-5
and the read-only status bit 6 always pass through unmodified. -/
theorem user_register_frame : ∀ r < 256, ∀ k < 8,
    ∀ (res : Resolution) (heater otp : Bool),
    (k ≠ 7 → k ≠ 0 →
      (UserRegister.set_resolution r res).testBit k = r.testBit k) ∧
    (k ≠ 2 →
      (UserRegister.set_heater_enabled r heater).testBit k = r.testBit k) ∧
    (k ≠ 1 →
      (UserRegister.set_otp_reload_enabled r otp).testBit k = r.testBit k) := by
  intro r hr k hk res heater otp
  exact ⟨UserRegister.set_resolution_frame r hr k hk res,
    UserRegister.set_heater_frame r hr k hk heater,
    UserRegister.set_otp_frame r hr k hk otp⟩

/-- Witness for claim C8: all three mutators preserve bit 4 of the register
byte `0x5A`. -/
theorem user_register_frame_witness :
    (0x5A : Nat) < 256 ∧ (4 : Nat) < 8 ∧
    (UserRegister.set_resolution 0x5A
      Resolution.Humidity11Temperature11).testBit 4 = Nat.testBit 0x5A 4 ∧
    (UserRegister.set_heater_enabled 0x5A true).testBit 4 = Nat.testBit 0x5A 4 ∧
    (UserRegister.set_otp_reload_enabled 0x5A false).testBit 4 =
      Nat.testBit 0x5A 4 :=
  ⟨by decide, by decide,
    (user_register_frame 0x5A (by decide) 4 (by decide)
      .Humidity11Temperature11 true false).1 (by decide) (by decide),
    (user_register_frame 0x5A (by decide) 4 (by decide)
      .Humidity11Temperature11 true false).2.1 (by decide),
    (user_register_frame 0x5A (by decide) 4 (by decide)
      .Humidity11Temperature11 true false).2.2 (by decide)⟩

/-- Claim C10: the sentinel comparison happens on the unmasked raw word, so
the words `0x0001`-`0x0003` decode to a normal reading with stored value
`0x0000` and the words `0xfffc`-`0xfffe` decode to a normal reading with
stored value `0xfffc`; only the exact words `0x0000` and `0xffff` decode to
the sentinels. -/
theorem sentinel_exact_words :
    Reading.from_raw 0x0001 = .Ok 0x0000 ∧ Reading.from_raw 0x0002 = .Ok 0x0000 ∧
    Reading.from_raw 0x0003 = .Ok 0x0000 ∧ Reading.from_raw 0xfffc = .Ok 0xfffc ∧
    Reading.from_raw 0xfffd = .Ok 0xfffc ∧ Reading.from_raw 0xfffe = .Ok 0xfffc ∧
    (∀ w : Nat, (Reading.from_raw w = .ErrorLow ↔ w = 0x0000) ∧
      (Reading.from_raw w = .ErrorHigh ↔ w = 0xffff)) := by
  refine ⟨by decide, by decide, by decide, by decide, by decide, by decide,
    fun w => ?_⟩
  by_cases h0 : w = 0
  · subst h0; decide
  · by_cases hf : w = 0xffff
    · subst hf; decide
    · simp [Reading.from_raw, h0, hf]

end HTU2XD
